import Mathlib

/-!
Verification of the pg8000 PostgreSQL client library (pure-Python DB-API
driver) against its natural-language specification.

The relevant parts of `pg8000/dbapi.py` and `pg8000/types.py` are shallowly
embedded below.  Python byte strings and text strings are both modelled as
`List Char` / `List Nat` (byte) sequences, following the Python 2 semantics
(`str = bytes`) that this six-based code base was written for.  Machine
integers are modelled as `Int` with explicit two's-complement packing where
the wire format requires it.  Fallible Python code (exceptions) is modelled
with `Except PyErr`.
-/

namespace PG8000

/-- Python exception outcomes used by the embedded code. -/
inductive PyErr where
  | queryParameterParseError (msg : List Char)
  | typeError
  | keyError
  | valueError
  | indexError
  | structError
  | invalidOperation
  | interfaceError (msg : List Char)
  | programmingError (severity code msg : List Char)
  | overflowError (msg : List Char)
  | progError (msg : List Char)
  | notSupportedError
  | internalError
  deriving DecidableEq

def min_int2 : Int := -(2 ^ 15)
def max_int2 : Int := 2 ^ 15
def min_int4 : Int := -(2 ^ 31)
def max_int4 : Int := 2 ^ 31
def min_int8 : Int := -(2 ^ 63)
def max_int8 : Int := 2 ^ 63

/-- Format codes (`dbapi.py`): `FC_TEXT = 0`, `FC_BINARY = 1`. -/
def FC_TEXT : Nat := 0

def FC_BINARY : Nat := 1

/-- The encoder function chosen by `inspect_int` (third tuple component);
the Python code returns `h_pack` / `i_pack` / `q_pack` / `numeric_send`. -/
inductive SendFunc where
  | hPackF
  | iPackF
  | qPackF
  | numericSendF
  deriving DecidableEq

/-- Function `dbapi.inspect_int`: strict-bound smallest-fit parameter type selection.
`Connection.make_params` reaches this via `inspect_funcs[int]` because
`Connection.py_types` has no entry for `int`. -/
def inspect_int (value : Int) : Int × Nat × SendFunc :=
  if min_int2 < value ∧ value < max_int2 then (21, FC_BINARY, .hPackF)
  else if min_int4 < value ∧ value < max_int4 then (23, FC_BINARY, .iPackF)
  else if min_int8 < value ∧ value < max_int8 then (20, FC_BINARY, .qPackF)
  else (1700, FC_BINARY, .numericSendF)

/-- A Python value handed to an `Interval` setter: either an `int`
(Python `bool` is a subclass of `int` and also satisfies `isinstance`)
or a value of any other type. -/
inductive PyVal where
  | int (n : Int)
  | other
  deriving DecidableEq

structure Interval where
  microseconds : Int
  days : Int
  months : Int
  deriving DecidableEq

/-- Setter `Interval._setMicroseconds`. -/
def intervalSetMicroseconds (iv : Interval) (v : PyVal) : Interval × Option PyErr :=
  match v with
  | .other => (iv, some .typeError)
  | .int n =>
    if ¬(min_int8 < n ∧ n < max_int8) then
      (iv, some (.overflowError "microseconds must be representable as a 64-bit integer".toList))
    else
      ({ iv with microseconds := n }, none)

/-- Setter `Interval._setDays`. -/
def intervalSetDays (iv : Interval) (v : PyVal) : Interval × Option PyErr :=
  match v with
  | .other => (iv, some .typeError)
  | .int n =>
    if ¬(min_int4 < n ∧ n < max_int4) then
      (iv, some (.overflowError "days must be representable as a 32-bit integer".toList))
    else
      ({ iv with days := n }, none)

/-- Setter `Interval._setMonths`. -/
def intervalSetMonths (iv : Interval) (v : PyVal) : Interval × Option PyErr :=
  match v with
  | .other => (iv, some .typeError)
  | .int n =>
    if ¬(min_int4 < n ∧ n < max_int4) then
      (iv, some (.overflowError "months must be representable as a 32-bit integer".toList))
    else
      ({ iv with months := n }, none)

/-- Packer `Struct("!h").pack`: big-endian two's-complement 16-bit encoding.
(The struct library raises for values outside the int16 range; every value
packed by the embedded code here is in range.) -/
def i16bytes (v : Int) : List Nat :=
  let m := (v % 65536).toNat
  [m / 256, m % 256]

/-- Unpacker `Struct("!h").unpack`: big-endian signed 16-bit decoding of two bytes. -/
def i16unpack (b0 b1 : Nat) : Int :=
  let v : Int := b0 * 256 + b1
  if v ≥ 32768 then v - 65536 else v

/-- The numeric variable built by `numeric_send` just before it is packed:
header fields and the packed base-10000 digit-group bytes. -/
structure NumericVar where
  ndigits : Int
  weight : Int
  sign : Int
  dscale : Int
  digits : List Nat
  deriving DecidableEq

/-- State of the digit-scanning loop of `numeric_send`
(`set_var_from_str` port): `decdigits`, `dweight`, `dscale`, `have_dp`. -/
structure NumScan where
  decdigits : List Nat
  dweight : Int
  dscale : Int
  haveDp : Bool

/-- The character loop of `numeric_send`: consume digits and decimal points,
stop at the first other character (returning it and the rest). -/
def scanDecDigits : List Char → NumScan → NumScan × List Char
  | [], acc => (acc, [])
  | c :: rest, acc =>
    if c.isDigit then
      scanDecDigits rest
        { acc with
          decdigits := acc.decdigits ++ [c.toNat - 48]
          dweight := if acc.haveDp then acc.dweight else acc.dweight + 1
          dscale := if acc.haveDp then acc.dscale + 1 else acc.dscale }
    else if c = '.' then scanDecDigits rest { acc with haveDp := true }
    else (acc, c :: rest)

/-- Digit-string to number accumulation. -/
def digitsToNat (ds : List Char) : Nat :=
  ds.foldl (fun a c => a * 10 + (c.toNat - 48)) 0

/-- All-digit check plus accumulation, `ValueError` otherwise
(models `int()` applied to an exponent substring). -/
def pyIntDigits (ds : List Char) : Except PyErr Int :=
  match ds with
  | [] => .error .valueError
  | _ => if ds.all Char.isDigit then .ok (digitsToNat ds) else .error .valueError

/-- Python `int(s)` on the exponent slice: optional sign then digits. -/
def pyIntOfChars (s : List Char) : Except PyErr Int :=
  match s with
  | '-' :: ds => (pyIntDigits ds).map (fun v => -v)
  | '+' :: ds => pyIntDigits ds
  | ds => pyIntDigits ds

/-- The packing loop of `numeric_send`: emit `n` base-10000 digit groups,
four decimal digits per group starting at index `i` (list reads past the
end behave as the zero padding `decdigits.extend([0, 0, 0])` provides). -/
def packGroups (dec : List Nat) : Nat → Nat → List Nat
  | 0, _ => []
  | n + 1, i =>
    i16bytes (((dec.getD i 0 * 10 + dec.getD (i + 1) 0) * 10
      + dec.getD (i + 2) 0) * 10 + dec.getD (i + 3) 0)
      ++ packGroups dec n (i + 4)

/-- First `strip_var()` loop of `numeric_send`: walk the packed digit BYTES
and, while a byte equals the character `'0'` (0x30 = 48), decrement both
`ndigits` and `weight` (Python 2 iterates a byte string as one-byte
strings; under Python 3 the `char == '0'` comparison is int-vs-str and is
never true, so this loop does even less there). -/
def stripLeadingLoop : List Nat → Int → Int → Int × Int
  | [], nd, w => (nd, w)
  | b :: rest, nd, w =>
    if nd = 0 then (nd, w)
    else if b = 48 then stripLeadingLoop rest (nd - 1) (w - 1)
    else (nd, w)

/-- Second `strip_var()` loop: same byte-vs-`'0'` comparison over
`reversed(digits)`, decrementing only `ndigits`. -/
def stripTrailingLoop : List Nat → Int → Int
  | [], nd => nd
  | b :: rest, nd =>
    if nd = 0 then nd
    else if b = 48 then stripTrailingLoop rest (nd - 1)
    else nd

/-- Encoder `numeric_send` from `dbapi.py` (= `types.numeric_send`): the input is
`str(d)` for the `Decimal` argument `d`.  Returns the header fields and
digit bytes that `hhhh_pack(ndigits, weight, sign, dscale) + digits`
serializes. -/
def numericSend (s : List Char) : Except PyErr NumericVar := do
  let c0 ← match s.head? with
    | none => Except.error PyErr.indexError
    | some c => Except.ok c
  let signBody : Int × List Char :=
    if c0 = '-' then (0x4000, s.tail)
    else if c0 = '+' then (0, s.tail)
    else (0, s)
  let sign := signBody.1
  let scanned := scanDecDigits signBody.2 ⟨[0, 0, 0, 0], -1, 0, false⟩
  let scan := scanned.1
  let dwds ← match scanned.2 with
    | c :: restExp =>
      if c = 'e' ∨ c = 'E' then do
        let exponent ← pyIntOfChars restExp
        let ds := scan.dscale - exponent
        Except.ok (scan.dweight + exponent, if ds < 0 then (0 : Int) else ds)
      else Except.ok (scan.dweight, scan.dscale)
    | [] => Except.ok (scan.dweight, scan.dscale)
  let dweight := dwds.1
  let dscale := dwds.2
  let weight : Int :=
    if dweight ≥ 0 then (dweight + 1 + 4 - 1) / 4 - 1
    else -((-dweight - 1) / 4 + 1)
  let offset : Int := (weight + 1) * 4 - (dweight + 1)
  let ndigits : Int := ((scan.decdigits.length : Int) - 4 + offset + 4 - 1) / 4
  let decExt := scan.decdigits ++ [0, 0, 0]
  let digits := packGroups decExt ndigits.toNat (4 - offset).toNat
  let stripped := stripLeadingLoop digits ndigits weight
  let nd2 := stripTrailingLoop digits.reverse stripped.1
  if nd2 = 0 then
    Except.ok ⟨nd2, 0, 0x4000, dscale, digits⟩
  else
    Except.ok ⟨nd2, stripped.2, sign, dscale, digits⟩

/-- The byte string `numeric_send` returns:
`hhhh_pack(ndigits, weight, sign, dscale) + digits`. -/
def numericWireBytes (nv : NumericVar) : List Nat :=
  i16bytes nv.ndigits ++ i16bytes nv.weight ++ i16bytes nv.sign
    ++ i16bytes nv.dscale ++ nv.digits

/-- Python `str.zfill`: left-pad with zeros to the given width, keeping a
leading sign in front of the padding. -/
def pyZfill (s : List Char) (width : Nat) : List Char :=
  if width ≤ s.length then s
  else
    match s with
    | '-' :: rest => '-' :: (List.replicate (width - s.length) '0' ++ rest)
    | '+' :: rest => '+' :: (List.replicate (width - s.length) '0' ++ rest)
    | _ => List.replicate (width - s.length) '0' ++ s

/-- Python slice `s[:k]` for a possibly negative `k`. -/
def pySliceTo (s : List Char) (k : Int) : List Char :=
  if k < 0 then s.take (s.length - k.natAbs) else s.take k.toNat

/-- Decoder `dbapi.numeric_recv(data, offset, ...)` up to the final `Decimal(...)`
call: unpack the four int16 header fields and `num_digits` int16 digit
groups at `offset + 8`, then build the decimal string handed to the
`Decimal` constructor. -/
def numericRecvStr (data : List Nat) (offset : Nat) : Except PyErr (List Char) := do
  if data.length < offset + 8 then throw PyErr.structError
  let numDigits := i16unpack (data.getD offset 0) (data.getD (offset + 1) 0)
  let weight := i16unpack (data.getD (offset + 2) 0) (data.getD (offset + 3) 0)
  let sign := i16unpack (data.getD (offset + 4) 0) (data.getD (offset + 5) 0)
  let scale := i16unpack (data.getD (offset + 6) 0) (data.getD (offset + 7) 0)
  let n := numDigits.toNat
  if data.length < offset + 8 + 2 * n then throw PyErr.structError
  let groups := (List.range n).map
    (fun k => i16unpack (data.getD (offset + 8 + 2 * k) 0) (data.getD (offset + 9 + 2 * k) 0))
  let posWeight : Int := max 0 weight + 1
  let digits : List (List Char) :=
    List.replicate (min weight 0).natAbs "0000".toList
      ++ groups.map (fun d => pyZfill (toString d).toList 4)
      ++ List.replicate (posWeight - numDigits).toNat "0000".toList
  let signStr : List Char := if sign ≠ 0 then ['-'] else []
  Except.ok (signStr ++ (digits.take posWeight.toNat).flatten ++ ['.']
    ++ pySliceTo (digits.drop posWeight.toNat).flatten scale)

/-- The `Decimal(string)` constructor, for the plain
`[sign] digits [. digits]` strings `numeric_recv` builds: the value is
returned as `(mantissa, scale)` with numeric value `mantissa / 10 ^ scale`
(`Decimal` equality is numeric equality). -/
def pyDecimalVal (s : List Char) : Option (Int × Nat) :=
  let negBody : Bool × List Char :=
    match s with
    | '-' :: r => (true, r)
    | '+' :: r => (false, r)
    | r => (false, r)
  let intPart := negBody.2.takeWhile (· ≠ '.')
  let fracPart :=
    match negBody.2.dropWhile (· ≠ '.') with
    | [] => []
    | _ :: r => r
  if intPart.all Char.isDigit ∧ fracPart.all Char.isDigit
      ∧ (intPart ++ fracPart) ≠ [] then
    let mantissa : Int := digitsToNat (intPart ++ fracPart)
    some (if negBody.1 then -mantissa else mantissa, fracPart.length)
  else none

/-- The rational a decoded `(mantissa, scale)` decimal denotes. -/
def decScaledToRat (p : Int × Nat) : ℚ := (p.1 : ℚ) / 10 ^ p.2

/-- Encode with `numeric_send`, decode the resulting bytes with
`numeric_recv` at offset 0, and return the decoded `Decimal` as a
`(mantissa, scale)` pair. -/
def numericRoundtrip (s : List Char) : Except PyErr (Int × Nat) := do
  let nv ← numericSend s
  let str ← numericRecvStr (numericWireBytes nv) 0
  match pyDecimalVal str with
  | some p => Except.ok p
  | none => Except.error PyErr.invalidOperation

/-- The single-quote character `'` (written by code point to keep source
text plain). -/
def sqChar : Char := Char.ofNat 39

/-- The backslash character. -/
def bsChar : Char := Char.ofNat 92

inductive Style where
  | qmark
  | numeric
  | named
  | format
  | pyformat
  deriving DecidableEq

inductive ScanMode where
  | outside
  | insideSQ
  | insideQI
  | insideES
  | insidePN
  deriving DecidableEq

structure ScanState where
  style : Style
  mode : ScanMode
  inQuoteEscape : Bool
  inParamEscape : Bool
  placeholders : List (List Char)
  output : List Char
  paramIdx : Nat
  prevC : Option Char
  deriving DecidableEq

/-- Emitter `next(param_idx)`: the string `"$" + str(n)`. -/
def dollarIdx (n : Nat) : List Char := '$' :: (toString n).toList

/-- Append `placeholders[-1] += c`. -/
def appendLast (ps : List (List Char)) (c : Char) : List (List Char) :=
  ps.dropLast ++ [ps.getLast?.getD [] ++ [c]]

/-- Python `list.index(x, 0, -1)` over the placeholder list: index of the
first occurrence of `x` among all but the last element. -/
def pyListIndex (x : List Char) : List (List Char) → Option Nat
  | [] => none
  | y :: ys => if y = x then some 0 else (pyListIndex x ys).map (· + 1)

/-- The placeholder-termination `try/except ValueError` block shared by the
`named` and `pyformat` branches: emit `$(first index + 1)` and drop the
duplicate, or emit `$(len(placeholders))` keeping the new name. -/
def resolvePlaceholder (ps : List (List Char)) : List Char × List (List Char) :=
  match pyListIndex (ps.getLast?.getD []) ps.dropLast with
  | some pidx => (dollarIdx (pidx + 1), ps.dropLast)
  | none => (dollarIdx ps.length, ps)

/-- Message of `QueryParameterParseError("Only %s and %% are supported")`. -/
def qppMsg1 : List Char := "Only %s and %% are supported".toList

/-- Message of `QueryParameterParseError` for a percent in a quoted string.
When `next_c` is `None` the Python string concatenation itself fails with
`TypeError` before the exception is built. -/
def qppMsg2 (nc : Char) : List Char :=
  [sqChar, '%', nc, sqChar] ++ " not supported in quoted string".toList

/-- Percent-escape handling shared by the three quoted states. -/
def stepQuotedPercent (st : ScanState) (nextC : Option Char) : Except PyErr ScanState :=
  if st.inParamEscape then
    Except.ok { st with inParamEscape := false, output := st.output ++ ['%'] }
  else
    match nextC with
    | some nc =>
      if nc = '%' then Except.ok { st with inParamEscape := true }
      else Except.error (.queryParameterParseError (qppMsg2 nc))
    | none => Except.error .typeError

/-- One iteration of the scanner loop body, before the trailing
`prev_c = c` assignment. -/
def stepCore (st : ScanState) (c : Char) (nextC : Option Char) : Except PyErr ScanState :=
  match st.mode with
  | .outside =>
    if c = sqChar then
      Except.ok
        { st with
          output := st.output ++ [c]
          mode := if st.prevC = some 'E' then ScanMode.insideES else ScanMode.insideSQ }
    else if c = '"' then
      Except.ok { st with output := st.output ++ [c], mode := .insideQI }
    else if st.style = .qmark ∧ c = '?' then
      Except.ok
        { st with
          output := st.output ++ dollarIdx st.paramIdx
          paramIdx := st.paramIdx + 1 }
    else if st.style = .numeric ∧ c = ':' then
      Except.ok { st with output := st.output ++ ['$'] }
    else if st.style = .named ∧ c = ':' then
      Except.ok { st with mode := .insidePN, placeholders := st.placeholders ++ [[]] }
    else if st.style = .pyformat ∧ c = '%' ∧ nextC = some '(' then
      Except.ok { st with mode := .insidePN, placeholders := st.placeholders ++ [[]] }
    else if (st.style = .format ∨ st.style = .pyformat) ∧ c = '%' then
      let st1 := { st with style := Style.format }
      if st1.inParamEscape then
        Except.ok { st1 with inParamEscape := false, output := st1.output ++ [c] }
      else if nextC = some '%' then
        Except.ok { st1 with inParamEscape := true }
      else if nextC = some 's' then
        Except.ok
          { st1 with
            mode := .insidePN
            output := st1.output ++ dollarIdx st1.paramIdx
            paramIdx := st1.paramIdx + 1 }
      else
        Except.error (.queryParameterParseError qppMsg1)
    else
      Except.ok { st with output := st.output ++ [c] }
  | .insideSQ =>
    if c = sqChar then
      if st.inQuoteEscape then
        Except.ok { st with output := st.output ++ [c], inQuoteEscape := false }
      else if nextC = some sqChar then
        Except.ok { st with output := st.output ++ [c], inQuoteEscape := true }
      else
        Except.ok { st with output := st.output ++ [c], mode := .outside }
    else if (st.style = .pyformat ∨ st.style = .format) ∧ c = '%' then
      stepQuotedPercent st nextC
    else
      Except.ok { st with output := st.output ++ [c] }
  | .insideQI =>
    if c = '"' then
      Except.ok { st with output := st.output ++ [c], mode := .outside }
    else if (st.style = .pyformat ∨ st.style = .format) ∧ c = '%' then
      stepQuotedPercent st nextC
    else
      Except.ok { st with output := st.output ++ [c] }
  | .insideES =>
    if c = sqChar ∧ st.prevC ≠ some bsChar then
      Except.ok { st with output := st.output ++ [c], mode := .outside }
    else if (st.style = .pyformat ∨ st.style = .format) ∧ c = '%' then
      stepQuotedPercent st nextC
    else
      Except.ok { st with output := st.output ++ [c] }
  | .insidePN =>
    match st.style with
    | .named =>
      let ps := appendLast st.placeholders c
      let terminate : Bool :=
        match nextC with
        | none => true
        | some nc => !nc.isAlphanum && nc != '_'
      if terminate then
        let r := resolvePlaceholder ps
        Except.ok
          { st with
            mode := .outside
            placeholders := r.2
            output := st.output ++ r.1 }
      else
        Except.ok { st with placeholders := ps }
    | .pyformat =>
      if st.prevC = some ')' ∧ c = 's' then
        let r := resolvePlaceholder st.placeholders
        Except.ok
          { st with
            mode := .outside
            placeholders := r.2
            output := st.output ++ r.1 }
      else if c = '(' ∨ c = ')' then
        Except.ok st
      else
        Except.ok { st with placeholders := appendLast st.placeholders c }
    | .format => Except.ok { st with mode := .outside }
    | _ => Except.ok st

/-- One full iteration including `prev_c = c`. -/
def step (st : ScanState) (c : Char) (nextC : Option Char) : Except PyErr ScanState :=
  match stepCore st c nextC with
  | .ok st1 => .ok { st1 with prevC := some c }
  | .error e => .error e

/-- Loop `for i, c in enumerate(query)`; `next_c` is the following
character when one exists. -/
def scanAux : List Char → ScanState → Except PyErr ScanState
  | [], st => .ok st
  | c :: rest, st =>
    match step st c rest.head? with
    | .ok st2 => scanAux rest st2
    | .error e => .error e

def initState (style : Style) : ScanState :=
  ⟨style, .outside, false, false, [], [], 1, none⟩

/-- What `convert_paramstyle` returns, with the translated query, the final
(possibly mutated) style that selects the `make_args` closure, and the
final placeholder list the named closure captures. -/
structure ConvResult where
  query : List Char
  style : Style
  placeholders : List (List Char)
  deriving DecidableEq

def convert_paramstyle (style : Style) (q : List Char) : Except PyErr ConvResult :=
  match scanAux q (initState style) with
  | .ok st => .ok ⟨st.output, st.style, st.placeholders⟩
  | .error e => .error e

/-- Closure `make_args` for the `named`/`pyformat` styles:
`tuple(args[p] for p in placeholders)`, `KeyError` when a name is
missing. -/
def pyMakeArgsNamed {α : Type} : List (List Char) → (List Char → Option α) →
    Except PyErr (List α)
  | [], _ => .ok []
  | p :: ps, args =>
    match args p with
    | some v =>
      match pyMakeArgsNamed ps args with
      | .ok vs => .ok (v :: vs)
      | .error e => .error e
    | none => .error PyErr.keyError

def PlainChar (c : Char) : Prop :=
  c ≠ sqChar ∧ c ≠ '"' ∧ c ≠ '%' ∧ c ≠ '?' ∧ c ≠ ':'

def PlainSQChar (c : Char) : Prop := c ≠ sqChar ∧ c ≠ '%'

instance (c : Char) : Decidable (PlainChar c) := by
  unfold PlainChar
  infer_instance

instance (c : Char) : Decidable (PlainSQChar c) := by
  unfold PlainSQChar
  infer_instance

def lastPrev : List Char → Option Char → Option Char
  | [], p => p
  | c :: a, _ => lastPrev a (some c)

/-- Index of the first occurrence of `x` (the value `list.index` returns
when `x` is present). -/
def firstIdx (x : List Char) : List (List Char) → Nat
  | [] => 0
  | y :: ys => if y = x then 0 else firstIdx x ys + 1

instance {e a : Type} [DecidableEq e] [DecidableEq a] : DecidableEq (Except e a) := fun x y =>
  match x, y with
  | .ok v, .ok w => if h : v = w then isTrue (by rw [h]) else isFalse (by simp [h])
  | .error v, .error w => if h : v = w then isTrue (by rw [h]) else isFalse (by simp [h])
  | .ok _, .error _ => isFalse (by simp)
  | .error _, .ok _ => isFalse (by simp)

/-- Frontend wire messages emitted by the embedded handlers.  The payload
of `closePortalMsg` is whatever name string the code writes into the
Close('P') message. -/
inductive WireMsg where
  | syncMsg
  | flushMsg
  | executeMsg (portal : List Char) (rowLimit : Nat)
  | passwordMsg (body : List Nat)
  | closePortalMsg (name : List Char)
  deriving DecidableEq

/-- Python `bytes.split(b"\x00")` (note a trailing NUL yields a trailing
empty part, and the empty string splits to one empty part). -/
def pySplitNul : List Char → List (List Char)
  | [] => [[]]
  | c :: rest =>
    if c = Char.ofNat 0 then [] :: pySplitNul rest
    else
      match pySplitNul rest with
      | s :: ss => (c :: s) :: ss
      | [] => [[c]]

/-- Lookup in `data_into_dict(data)`: the dict comprehension
`dict((s[0:1], s[1:]) for s in data.split(b"\x00"))` keeps the LAST value
for a repeated key; `none` models a `KeyError`. -/
def dataIntoDictGet (data : List Char) (key : List Char) : Option (List Char) :=
  ((pySplitNul data).map (fun s => (s.take 1, s.drop 1))).foldl
    (fun acc kv => if kv.1 = key then some kv.2 else acc) none

def RESPONSE_SEVERITY : List Char := "S".toList

def RESPONSE_CODE : List Char := "C".toList

def RESPONSE_MSG : List Char := "M".toList

/-- Outcome of `Connection.handle_ERROR_RESPONSE`: messages written to the
socket, the `binding` flag afterwards, and the exception raised. -/
structure ErrorHandlerResult where
  sent : List WireMsg
  binding : Bool
  raised : PyErr
  deriving DecidableEq

/-- Handler `Connection.handle_ERROR_RESPONSE` (the handler always
raises). -/
def handle_ERROR_RESPONSE (binding : Bool) (data : List Char) : ErrorHandlerResult :=
  let get := dataIntoDictGet data
  let sent := if binding then [WireMsg.syncMsg] else []
  let binding2 := if binding then false else binding
  match get RESPONSE_CODE with
  | none => ⟨sent, binding2, .keyError⟩
  | some code =>
    if code = ("28000".toList) then
      ⟨sent, binding2, .interfaceError ("md5 password authentication failed".toList)⟩
    else
      match get RESPONSE_SEVERITY, get RESPONSE_MSG with
      | some sev, some msg => ⟨sent, binding2, .programmingError sev code msg⟩
      | none, _ => ⟨sent, binding2, .keyError⟩
      | some _, none => ⟨sent, binding2, .keyError⟩

/-- Unpacker `i_unpack`: big-endian signed 32-bit integer from four
bytes. -/
def intFromBytes4 (b0 b1 b2 b3 : Nat) : Int :=
  let v : Int := ((b0 * 256 + b1) * 256 + b2) * 256 + b3
  if v ≥ 2 ^ 31 then v - 2 ^ 32 else v

/-- Handler `Connection.handle_AUTHENTICATION_REQUEST`, parameterized by
the `md5(x).hexdigest().encode("ascii")` function; `user` and `password`
stand for the connection parameters already encoded as ASCII bytes.  The
not-supported / unrecognized auth-code branches concatenate a `str` with
an `int` and therefore raise `TypeError` before their intended errors. -/
def handle_AUTHENTICATION_REQUEST (md5hex : List Nat → List Nat)
    (user : List Nat) (password : Option (List Nat)) (data : List Nat) :
    Except PyErr (List WireMsg) :=
  match data with
  | b0 :: b1 :: b2 :: b3 :: rest =>
    let authCode := intFromBytes4 b0 b1 b2 b3
    if authCode = 0 then .ok []
    else if authCode = 5 then
      if rest.length < 4 then .error .structError
      else
        let salt := rest.take 4
        match password with
        | none =>
          .error (.interfaceError
            ("server requesting MD5 password authentication, but no password was provided".toList))
        | some pwd =>
          let body := [109, 100, 53] ++ md5hex (md5hex (pwd ++ user) ++ salt)
          .ok [WireMsg.passwordMsg (body ++ [0])]
    else .error .typeError
  | _ => .error .structError

/-- State of a `PreparedStatement` as far as `read_tuple` observes it;
`portalRowDesc` is `none` when the attribute still holds `None`.  Rows are
an abstract type `α`. -/
structure PreparedStatementState (α : Type) where
  cachedRows : List α
  portalSuspended : Bool
  portalRowDesc : Option (List Unit)
  portalName : List Char
  statementName : List Char
  cmd : Option (List Char)
  deriving DecidableEq

/-- Attribute `PreparedStatement.row_cache_size = 100`. -/
def row_cache_size : Nat := 100

/-- Method `Connection.send_EXECUTE`: clear `cmd` and `portal_suspended`,
then send Execute(portal, row_count) + Sync + Flush. -/
def send_EXECUTE {α : Type} (ps : PreparedStatementState α) (rowCount : Nat) :
    PreparedStatementState α × List WireMsg :=
  ({ ps with cmd := none, portalSuspended := false },
   [WireMsg.executeMsg ps.portalName rowCount, .syncMsg, .flushMsg])

/-- Method `Connection.close_portal`: send Close('P') + Sync and dispatch
responses (`dispatch` abstracts `handle_messages`).  Note the payload:
`_make_CLOSE_portal` calls `_make_CLOSE(b"P", ps)`, which writes
`ps.statement_name` — not `ps.portal_name` — into the Close('P')
message. -/
def close_portal {α : Type}
    (dispatch : PreparedStatementState α → PreparedStatementState α)
    (ps : PreparedStatementState α) : PreparedStatementState α × List WireMsg :=
  (dispatch ps, [WireMsg.closePortalMsg ps.statementName, .syncMsg])

/-- Method `PreparedStatement.read_tuple`, with `handle_messages`
abstracted as the `dispatch` state transformer.  Returns the Python
return value (row, `None`, or a raised error), the post-state, and the
wire messages sent. -/
def read_tuple {α : Type}
    (dispatch : PreparedStatementState α → PreparedStatementState α)
    (ps : PreparedStatementState α) :
    Except PyErr (Option α) × PreparedStatementState α × List WireMsg :=
  match ps.cachedRows with
  | r :: rest => (.ok (some r), { ps with cachedRows := rest }, [])
  | [] =>
    let s1 :=
      if ps.portalSuspended then
        let se := send_EXECUTE ps row_cache_size
        (dispatch se.1, se.2)
      else (ps, [])
    match s1.1.cachedRows with
    | r :: rest => (.ok (some r), { s1.1 with cachedRows := rest }, s1.2)
    | [] =>
      match s1.1.portalRowDesc with
      | none => (.error .typeError, s1.1, s1.2)
      | some [] => (.error (.progError ("no result set".toList)), s1.1, s1.2)
      | some (_ :: _) =>
        let cp := close_portal dispatch s1.1
        (.ok none, cp.1, s1.2 ++ cp.2)

/-- C2: the binary numeric codec round-trips the six specified `Decimal`
values numerically.  The input strings are Python's `str()` renderings of
`Decimal('0')`, `Decimal('1')`, `Decimal('-1')`, `Decimal('0.0001')`,
`Decimal('1e20')` (= `1E+20`) and `Decimal('-1.5e-7')` (= `-1.5E-7`); for
each, decoding the encoded bytes succeeds and denotes exactly the original
rational value. -/
theorem C2_numeric_codec_roundtrip :
    (∃ p, (numericRoundtrip ("0".toList)).toOption = some p ∧
      decScaledToRat p = 0) ∧
    (∃ p, (numericRoundtrip ("1".toList)).toOption = some p ∧
      decScaledToRat p = 1) ∧
    (∃ p, (numericRoundtrip ("-1".toList)).toOption = some p ∧
      decScaledToRat p = -1) ∧
    (∃ p, (numericRoundtrip ("0.0001".toList)).toOption = some p ∧
      decScaledToRat p = 1 / 10000) ∧
    (∃ p, (numericRoundtrip ("1E+20".toList)).toOption = some p ∧
      decScaledToRat p = 10 ^ 20) ∧
    (∃ p, (numericRoundtrip ("-1.5E-7".toList)).toOption = some p ∧
      decScaledToRat p = -(15 / 100000000)) := by
  refine ⟨⟨(0, 0), by decide, ?_⟩, ⟨(1, 0), by decide, ?_⟩,
    ⟨(-1, 0), by decide, ?_⟩, ⟨(1, 4), by decide, ?_⟩,
    ⟨(10 ^ 20, 0), by decide, ?_⟩, ⟨(-15, 8), by decide, ?_⟩⟩ <;>
    norm_num [decScaledToRat]

/-- C3: the `strip_var()` port never strips a zero digit group, because it
compares each packed BYTE with the character `'0'` (0x30) while a zero
group is the bytes `00 00`.  For `Decimal('1.00000')` the emitted header
has `ndigits = 3` with both all-zero trailing groups still counted (the
claim requires 1), and for `Decimal('-0')` the emitted sign is `0x4000`,
the NEGATIVE flag (the claim requires the positive sign 0). -/
theorem C3_numeric_send_no_strip :
    (numericSend ("1.00000".toList)).toOption =
      some ⟨3, 0, 0, 5, [0, 1, 0, 0, 0, 0]⟩ ∧ (3 : Int) ≠ 1 ∧
    (numericSend ("-0".toList)).toOption = some ⟨1, 0, 0x4000, 0, [0, 0]⟩ ∧
    (0x4000 : Int) ≠ 0 := by
  refine ⟨?_, by decide, ?_, by decide⟩ <;> decide

/-- C1 counterexample: the claim assigns OID 21 to every `v` with
`-2^15 ≤ v ≤ 2^15 - 1`, but the code's strict lower bound sends
`v = -2^15 = -32768` to int4 (OID 23) instead. -/
theorem C1_counterexample_int2_lower_bound :
    (inspect_int (-(2 ^ 15))).1 = 23 ∧ ((23 : Int) ≠ 21) := by
  constructor
  · decide
  · decide

/-- C1 (amended): `inspect_int` selects the smallest of int2/int4/int8/numeric
whose OPEN interval `(-2^(w-1), 2^(w-1))` strictly contains `v`; the most
negative value of each width is promoted to the next wider type. -/
theorem C1_inspect_int_strict_smallest_fit (v : Int) :
    ((-(2 ^ 15) < v ∧ v < 2 ^ 15) → inspect_int v = (21, FC_BINARY, .hPackF)) ∧
    (¬(-(2 ^ 15) < v ∧ v < 2 ^ 15) → (-(2 ^ 31) < v ∧ v < 2 ^ 31) →
      inspect_int v = (23, FC_BINARY, .iPackF)) ∧
    (¬(-(2 ^ 31) < v ∧ v < 2 ^ 31) → (-(2 ^ 63) < v ∧ v < 2 ^ 63) →
      inspect_int v = (20, FC_BINARY, .qPackF)) ∧
    (¬(-(2 ^ 63) < v ∧ v < 2 ^ 63) →
      inspect_int v = (1700, FC_BINARY, .numericSendF)) := by
  unfold inspect_int min_int2 max_int2 min_int4 max_int4 min_int8 max_int8
  refine ⟨fun h => ?_, fun h1 h2 => ?_, fun h1 h2 => ?_, fun h => ?_⟩
  · rw [if_pos h]
  · rw [if_neg h1, if_pos h2]
  · have h0 : ¬(-(2 ^ 15) < v ∧ v < 2 ^ 15) := by
      intro hc
      exact h1 ⟨by omega, by omega⟩
    rw [if_neg h0, if_neg h1, if_pos h2]
  · have h4 : ¬(-(2 ^ 31) < v ∧ v < 2 ^ 31) := by
      intro hc
      exact h ⟨by omega, by omega⟩
    have h0 : ¬(-(2 ^ 15) < v ∧ v < 2 ^ 15) := by
      intro hc
      exact h ⟨by omega, by omega⟩
    rw [if_neg h0, if_neg h4, if_neg h]

/-- C1 witness: the amended theorem applied at concrete inputs from each
branch. -/
theorem C1_witness :
    inspect_int 3 = (21, FC_BINARY, .hPackF) ∧
    inspect_int 40000 = (23, FC_BINARY, .iPackF) ∧
    inspect_int (2 ^ 40) = (20, FC_BINARY, .qPackF) ∧
    inspect_int (2 ^ 70) = (1700, FC_BINARY, .numericSendF) :=
  ⟨(C1_inspect_int_strict_smallest_fit 3).1 (by decide),
   (C1_inspect_int_strict_smallest_fit 40000).2.1 (by decide) (by decide),
   (C1_inspect_int_strict_smallest_fit (2 ^ 40)).2.2.1 (by decide) (by decide),
   (C1_inspect_int_strict_smallest_fit (2 ^ 70)).2.2.2 (by decide)⟩

/-- C10: the `Interval` mutators are strict-open-bound range checked and fail
atomically: a non-int raises `TypeError`, an int outside the open interval
(including the representable boundary values `-2^63` / `-2^31`) raises
`OverflowError`, and in every failing case the stored state is unchanged;
an in-range int updates exactly the assigned field. -/
theorem C10_interval_setters (iv : Interval) (n : Int) :
    (intervalSetMicroseconds iv .other = (iv, some .typeError)) ∧
    (intervalSetDays iv .other = (iv, some .typeError)) ∧
    (intervalSetMonths iv .other = (iv, some .typeError)) ∧
    (¬(-(2 ^ 63) < n ∧ n < 2 ^ 63) →
      intervalSetMicroseconds iv (.int n) =
        (iv, some (.overflowError
          "microseconds must be representable as a 64-bit integer".toList))) ∧
    (¬(-(2 ^ 31) < n ∧ n < 2 ^ 31) →
      intervalSetDays iv (.int n) =
        (iv, some (.overflowError
          "days must be representable as a 32-bit integer".toList))) ∧
    (¬(-(2 ^ 31) < n ∧ n < 2 ^ 31) →
      intervalSetMonths iv (.int n) =
        (iv, some (.overflowError
          "months must be representable as a 32-bit integer".toList))) ∧
    ((-(2 ^ 63) < n ∧ n < 2 ^ 63) →
      intervalSetMicroseconds iv (.int n) = ({ iv with microseconds := n }, none)) ∧
    ((-(2 ^ 31) < n ∧ n < 2 ^ 31) →
      intervalSetDays iv (.int n) = ({ iv with days := n }, none)) ∧
    ((-(2 ^ 31) < n ∧ n < 2 ^ 31) →
      intervalSetMonths iv (.int n) = ({ iv with months := n }, none)) := by
  refine ⟨rfl, rfl, rfl, fun h => ?_, fun h => ?_, fun h => ?_,
    fun h => ?_, fun h => ?_, fun h => ?_⟩ <;>
    simp only [intervalSetMicroseconds, intervalSetDays, intervalSetMonths,
      min_int8, max_int8, min_int4, max_int4] <;>
    [rw [if_pos h]; rw [if_pos h]; rw [if_pos h];
     rw [if_neg (by simpa using h)]; rw [if_neg (by simpa using h)];
     rw [if_neg (by simpa using h)]]

/-- C10 witness: boundary value `-2^63` is rejected leaving the interval
unchanged; an in-range value is stored. -/
theorem C10_witness :
    intervalSetMicroseconds ⟨7, 8, 9⟩ (.int (-(2 ^ 63))) =
      (⟨7, 8, 9⟩, some (.overflowError
        "microseconds must be representable as a 64-bit integer".toList)) ∧
    intervalSetDays ⟨7, 8, 9⟩ (.int 5) = (⟨7, 5, 9⟩, none) :=
  ⟨(C10_interval_setters ⟨7, 8, 9⟩ (-(2 ^ 63))).2.2.2.1 (by decide),
   (C10_interval_setters ⟨7, 8, 9⟩ 5).2.2.2.2.2.2.2.1 (by decide)⟩

theorem step_outside_plain (st : ScanState) (c : Char) (n : Option Char)
    (hm : st.mode = .outside) (hc : PlainChar c) :
    step st c n = .ok { st with output := st.output ++ [c], prevC := some c } := by
  obtain ⟨h1, h2, h3, h4, h5⟩ := hc
  cases st with
  | mk sty mode qe pe ps out pi pv =>
    simp only at hm
    subst hm
    simp [step, stepCore, h1, h2, h3, h4, h5]

theorem step_sq_plain (st : ScanState) (c : Char) (n : Option Char)
    (hm : st.mode = .insideSQ) (hc : PlainSQChar c) :
    step st c n = .ok { st with output := st.output ++ [c], prevC := some c } := by
  obtain ⟨h1, h3⟩ := hc
  cases st with
  | mk sty mode qe pe ps out pi pv =>
    simp only at hm
    subst hm
    simp [step, stepCore, h1, h3]

theorem scanAux_append_outside_plain (a b : List Char) :
    ∀ st : ScanState, st.mode = .outside → (∀ c ∈ a, PlainChar c) →
    scanAux (a ++ b) st =
      scanAux b { st with output := st.output ++ a, prevC := lastPrev a st.prevC } := by
  induction a with
  | nil =>
    intro st hm hpa
    simp [lastPrev]
  | cons c a ih =>
    intro st hm hpa
    have hc := hpa c (by simp)
    have hrest : ∀ x ∈ a, PlainChar x := fun x hx => hpa x (by simp [hx])
    rw [List.cons_append, scanAux, step_outside_plain st c _ hm hc]
    dsimp only
    refine (ih { st with output := st.output ++ [c], prevC := some c } hm hrest).trans ?_
    simp [lastPrev, List.append_assoc]

theorem scanAux_append_sq_plain (a b : List Char) :
    ∀ st : ScanState, st.mode = .insideSQ → (∀ c ∈ a, PlainSQChar c) →
    scanAux (a ++ b) st =
      scanAux b { st with output := st.output ++ a, prevC := lastPrev a st.prevC } := by
  induction a with
  | nil =>
    intro st hm hpa
    simp [lastPrev]
  | cons c a ih =>
    intro st hm hpa
    have hc := hpa c (by simp)
    have hrest : ∀ x ∈ a, PlainSQChar x := fun x hx => hpa x (by simp [hx])
    rw [List.cons_append, scanAux, step_sq_plain st c _ hm hc]
    dsimp only
    refine (ih { st with output := st.output ++ [c], prevC := some c } hm hrest).trans ?_
    simp [lastPrev, List.append_assoc]

theorem percent_ne_sqChar : ('%' : Char) ≠ sqChar := by decide

theorem step_outside_open_sq (st : ScanState) (n : Option Char)
    (hm : st.mode = .outside) (hp : st.prevC ≠ some 'E') :
    step st sqChar n =
      .ok { st with
            output := st.output ++ [sqChar]
            mode := .insideSQ
            prevC := some sqChar } := by
  cases st with
  | mk sty mode qe pe ps out pi pv =>
    simp only at hm hp
    subst hm
    simp [step, stepCore, hp]

theorem step_sq_close (st : ScanState) (n : Option Char)
    (hm : st.mode = .insideSQ) (hq : st.inQuoteEscape = false)
    (hn : n ≠ some sqChar) :
    step st sqChar n =
      .ok { st with
            output := st.output ++ [sqChar]
            mode := .outside
            prevC := some sqChar } := by
  cases st with
  | mk sty mode qe pe ps out pi pv =>
    simp only at hm hq
    subst hm
    subst hq
    simp [step, stepCore, hn]

theorem step_outside_percent_raise (st : ScanState) (n : Option Char)
    (hm : st.mode = .outside)
    (hsty : st.style = .format ∨ st.style = .pyformat)
    (hpe : st.inParamEscape = false)
    (hn1 : n ≠ some '%') (hn2 : n ≠ some 's')
    (hn3 : st.style = .pyformat → n ≠ some '(') :
    step st '%' n = .error (.queryParameterParseError qppMsg1) := by
  cases st with
  | mk sty mode qe pe ps out pi pv =>
    simp only at hm hpe hsty hn3
    subst hm
    subst hpe
    rcases hsty with h | h <;> subst h
    · simp [step, stepCore, hn1, hn2, percent_ne_sqChar]
    · simp [step, stepCore, hn1, hn2, hn3 rfl, percent_ne_sqChar]

theorem step_outside_percent_escape_set (st : ScanState)
    (hm : st.mode = .outside)
    (hsty : st.style = .format ∨ st.style = .pyformat)
    (hpe : st.inParamEscape = false) :
    step st '%' (some '%') =
      .ok { st with
            style := .format
            inParamEscape := true
            prevC := some '%' } := by
  cases st with
  | mk sty mode qe pe ps out pi pv =>
    simp only at hm hpe hsty
    subst hm
    subst hpe
    rcases hsty with h | h <;> subst h <;>
      simp [step, stepCore, percent_ne_sqChar]

theorem step_outside_percent_consume (st : ScanState) (n : Option Char)
    (hm : st.mode = .outside)
    (hsty : st.style = .format ∨ st.style = .pyformat)
    (hpe : st.inParamEscape = true)
    (hn3 : st.style = .pyformat → n ≠ some '(') :
    step st '%' n =
      .ok { st with
            style := .format
            inParamEscape := false
            output := st.output ++ ['%']
            prevC := some '%' } := by
  cases st with
  | mk sty mode qe pe ps out pi pv =>
    simp only at hm hpe hsty hn3
    subst hm
    subst hpe
    rcases hsty with h | h <;> subst h
    · simp [step, stepCore, percent_ne_sqChar]
    · simp [step, stepCore, hn3 rfl, percent_ne_sqChar]

theorem step_outside_percent_s (st : ScanState)
    (hm : st.mode = .outside)
    (hsty : st.style = .format ∨ st.style = .pyformat)
    (hpe : st.inParamEscape = false) :
    step st '%' (some 's') =
      .ok { st with
            style := .format
            mode := .insidePN
            output := st.output ++ dollarIdx st.paramIdx
            paramIdx := st.paramIdx + 1
            prevC := some '%' } := by
  cases st with
  | mk sty mode qe pe ps out pi pv =>
    simp only at hm hpe hsty
    subst hm
    subst hpe
    rcases hsty with h | h <;> subst h <;>
      simp [step, stepCore, percent_ne_sqChar]

theorem step_pn_format (st : ScanState) (c : Char) (n : Option Char)
    (hm : st.mode = .insidePN) (hsty : st.style = .format) :
    step st c n = .ok { st with mode := .outside, prevC := some c } := by
  cases st with
  | mk sty mode qe pe ps out pi pv =>
    simp only at hm hsty
    subst hm
    subst hsty
    simp [step, stepCore]

theorem step_sq_percent_raise (st : ScanState) (X : Char)
    (hm : st.mode = .insideSQ)
    (hsty : st.style = .format ∨ st.style = .pyformat)
    (hpe : st.inParamEscape = false) (hX : X ≠ '%') :
    step st '%' (some X) = .error (.queryParameterParseError (qppMsg2 X)) := by
  cases st with
  | mk sty mode qe pe ps out pi pv =>
    simp only at hm hpe hsty
    subst hm
    subst hpe
    rcases hsty with h | h <;> subst h <;>
      simp [step, stepCore, stepQuotedPercent, hX, percent_ne_sqChar]

theorem step_sq_percent_escape_set (st : ScanState)
    (hm : st.mode = .insideSQ)
    (hsty : st.style = .format ∨ st.style = .pyformat)
    (hpe : st.inParamEscape = false) :
    step st '%' (some '%') =
      .ok { st with inParamEscape := true, prevC := some '%' } := by
  cases st with
  | mk sty mode qe pe ps out pi pv =>
    simp only at hm hpe hsty
    subst hm
    subst hpe
    rcases hsty with h | h <;> subst h <;>
      simp [step, stepCore, stepQuotedPercent, percent_ne_sqChar]

theorem step_sq_percent_consume (st : ScanState) (n : Option Char)
    (hm : st.mode = .insideSQ)
    (hsty : st.style = .format ∨ st.style = .pyformat)
    (hpe : st.inParamEscape = true) :
    step st '%' n =
      .ok { st with
            inParamEscape := false
            output := st.output ++ ['%']
            prevC := some '%' } := by
  cases st with
  | mk sty mode qe pe ps out pi pv =>
    simp only at hm hpe hsty
    subst hm
    subst hpe
    rcases hsty with h | h <;> subst h <;>
      simp [step, stepCore, stepQuotedPercent, percent_ne_sqChar]

theorem scanAux_all_outside_plain (a : List Char) (st : ScanState)
    (hm : st.mode = .outside) (hpa : ∀ c ∈ a, PlainChar c) :
    scanAux a st =
      .ok { st with output := st.output ++ a, prevC := lastPrev a st.prevC } := by
  have h := scanAux_append_outside_plain a [] st hm hpa
  rw [List.append_nil] at h
  rw [h]
  rfl

theorem pyListIndex_of_mem (x : List Char) (l : List (List Char)) (h : x ∈ l) :
    pyListIndex x l = some (firstIdx x l) := by
  induction l with
  | nil => cases h
  | cons y ys ih =>
    by_cases hy : y = x
    · simp [pyListIndex, firstIdx, hy]
    · have hx : x ∈ ys := by
        cases h with
        | head => exact absurd rfl hy
        | tail _ h2 => exact h2
      simp [pyListIndex, firstIdx, hy, ih hx]

theorem pyListIndex_of_not_mem (x : List Char) (l : List (List Char)) (h : x ∉ l) :
    pyListIndex x l = none := by
  induction l with
  | nil => rfl
  | cons y ys ih =>
    have hy : y ≠ x := fun hc => h (hc ▸ List.mem_cons_self y ys)
    have hx : x ∉ ys := fun hc => h (List.mem_cons_of_mem y hc)
    simp [pyListIndex, hy, ih hx]

theorem resolvePlaceholder_mem (acc : List (List Char)) (nm : List Char)
    (h : nm ∈ acc) :
    resolvePlaceholder (acc ++ [nm]) = (dollarIdx (firstIdx nm acc + 1), acc) := by
  unfold resolvePlaceholder
  rw [List.getLast?_concat, List.dropLast_concat]
  simp [pyListIndex_of_mem nm acc h]

theorem resolvePlaceholder_not_mem (acc : List (List Char)) (nm : List Char)
    (h : nm ∉ acc) :
    resolvePlaceholder (acc ++ [nm]) =
      (dollarIdx (acc.length + 1), acc ++ [nm]) := by
  unfold resolvePlaceholder
  rw [List.getLast?_concat, List.dropLast_concat]
  simp [pyListIndex_of_not_mem nm acc h]

theorem pyMakeArgsNamed_total {α : Type} (f : List Char → α) (ps : List (List Char)) :
    pyMakeArgsNamed ps (fun p => some (f p)) = .ok (ps.map f) := by
  induction ps with
  | nil => rfl
  | cons p ps ih => simp [pyMakeArgsNamed, ih]

set_option maxHeartbeats 1000000 in
theorem stepCore_style_format_mono (st : ScanState) (c : Char) (n : Option Char)
    (st1 : ScanState) (hsty : st.style = .format)
    (h : stepCore st c n = .ok st1) : st1.style = .format := by
  cases st with
  | mk sty mode qe pe ps out pi pv =>
    simp only at hsty
    subst hsty
    cases mode <;>
      simp only [stepCore, stepQuotedPercent] at h <;>
      (repeat' split at h) <;>
      (try cases h) <;>
      rfl

theorem step_style_format_mono (st : ScanState) (c : Char) (n : Option Char)
    (st2 : ScanState) (hsty : st.style = .format) (h : step st c n = .ok st2) :
    st2.style = .format := by
  unfold step at h
  cases hc : stepCore st c n with
  | error e =>
    rw [hc] at h
    cases h
  | ok st1 =>
    rw [hc] at h
    cases h
    exact stepCore_style_format_mono st c n st1 hsty hc

theorem conv_percent_raise_outside (sty : Style)
    (hsty : sty = .format ∨ sty = .pyformat) (a b : List Char) (X : Char)
    (hpa : ∀ c ∈ a, PlainChar c) (hX1 : X ≠ 's') (hX2 : X ≠ '%')
    (hX3 : sty = .pyformat → X ≠ '(') :
    convert_paramstyle sty (a ++ '%' :: X :: b) =
      .error (.queryParameterParseError qppMsg1) := by
  unfold convert_paramstyle
  rw [scanAux_append_outside_plain a ('%' :: X :: b) (initState sty) rfl hpa]
  rw [scanAux, List.head?_cons]
  rw [step_outside_percent_raise _ (some X) rfl hsty rfl
    (fun hc => hX2 (Option.some.inj hc)) (fun hc => hX1 (Option.some.inj hc))
    (fun hsty2 hc => hX3 hsty2 (Option.some.inj hc))]

theorem conv_percent_raise_sq (sty : Style)
    (hsty : sty = .format ∨ sty = .pyformat) (a q r : List Char) (X : Char)
    (hpa : ∀ c ∈ a, PlainChar c) (hE : lastPrev a none ≠ some 'E')
    (hpq : ∀ c ∈ q, PlainSQChar c) (hX2 : X ≠ '%') :
    convert_paramstyle sty (a ++ sqChar :: (q ++ '%' :: X :: r)) =
      .error (.queryParameterParseError (qppMsg2 X)) := by
  unfold convert_paramstyle
  rw [scanAux_append_outside_plain a _ (initState sty) rfl hpa]
  rw [scanAux]
  rw [step_outside_open_sq _ _ rfl hE]
  dsimp only
  rw [scanAux_append_sq_plain q ('%' :: X :: r) _ rfl hpq]
  rw [scanAux, List.head?_cons]
  rw [step_sq_percent_raise _ X rfl hsty rfl hX2]

theorem conv_doublepercent_outside (sty : Style)
    (hsty : sty = .format ∨ sty = .pyformat) (a b : List Char)
    (hpa : ∀ c ∈ a, PlainChar c) (hpb : ∀ c ∈ b, PlainChar c) :
    convert_paramstyle sty (a ++ '%' :: '%' :: b) =
      .ok ⟨a ++ '%' :: b, .format, []⟩ := by
  unfold convert_paramstyle
  rw [scanAux_append_outside_plain a _ (initState sty) rfl hpa]
  rw [scanAux, List.head?_cons]
  rw [step_outside_percent_escape_set _ rfl hsty rfl]
  dsimp only
  rw [scanAux]
  rw [step_outside_percent_consume _ _ rfl (Or.inl rfl) rfl
    (fun h => absurd (show Style.format = Style.pyformat from h) (by decide))]
  dsimp only
  rw [scanAux_all_outside_plain b _ rfl hpb]
  dsimp only
  simp [initState, List.append_assoc]

theorem conv_doublepercent_sq (sty : Style)
    (hsty : sty = .format ∨ sty = .pyformat) (a q1 q2 b : List Char)
    (hpa : ∀ c ∈ a, PlainChar c) (hE : lastPrev a none ≠ some 'E')
    (hpq1 : ∀ c ∈ q1, PlainSQChar c) (hpq2 : ∀ c ∈ q2, PlainSQChar c)
    (hpb : ∀ c ∈ b, PlainChar c) :
    convert_paramstyle sty
        (a ++ sqChar :: (q1 ++ '%' :: '%' :: (q2 ++ sqChar :: b))) =
      .ok ⟨a ++ sqChar :: (q1 ++ '%' :: (q2 ++ sqChar :: b)), sty, []⟩ := by
  have hbq : b.head? ≠ some sqChar := by
    cases b with
    | nil => simp
    | cons x xs =>
      simp only [List.head?_cons]
      intro hc
      exact (hpb x (by simp)).1 (Option.some.inj hc)
  unfold convert_paramstyle
  rw [scanAux_append_outside_plain a _ (initState sty) rfl hpa]
  rw [scanAux]
  rw [step_outside_open_sq _ _ rfl hE]
  dsimp only
  rw [scanAux_append_sq_plain q1 _ _ rfl hpq1]
  rw [scanAux, List.head?_cons]
  rw [step_sq_percent_escape_set _ rfl hsty rfl]
  dsimp only
  rw [scanAux]
  rw [step_sq_percent_consume _ _ rfl hsty rfl]
  dsimp only
  rw [scanAux_append_sq_plain q2 _ _ rfl hpq2]
  rw [scanAux]
  rw [step_sq_close _ _ rfl rfl hbq]
  dsimp only
  rw [scanAux_all_outside_plain b _ rfl hpb]
  dsimp only
  simp [initState, List.append_assoc]

theorem conv_pyformat_s_before_named_raises (a b r : List Char)
    (hpa : ∀ c ∈ a, PlainChar c) (hpb : ∀ c ∈ b, PlainChar c) :
    convert_paramstyle .pyformat (a ++ '%' :: 's' :: (b ++ '%' :: '(' :: r)) =
      .error (.queryParameterParseError qppMsg1) := by
  unfold convert_paramstyle
  rw [scanAux_append_outside_plain a _ (initState .pyformat) rfl hpa]
  rw [scanAux, List.head?_cons]
  rw [step_outside_percent_s _ rfl (Or.inr rfl) rfl]
  dsimp only
  rw [scanAux]
  rw [step_pn_format _ 's' _ rfl rfl]
  dsimp only
  rw [scanAux_append_outside_plain b _ _ rfl hpb]
  rw [scanAux, List.head?_cons]
  rw [step_outside_percent_raise _ (some '(') rfl (Or.inl rfl) rfl
    (by decide) (by decide)
    (fun h => absurd (show Style.format = Style.pyformat from h) (by decide))]

theorem step_pyformat_percent_switches (st : ScanState) (n : Option Char)
    (hm : st.mode = .outside) (hsty : st.style = .pyformat)
    (hpe : st.inParamEscape = false) (hn : n ≠ some '(') :
    (∃ st2, step st '%' n = .ok st2 ∧ st2.style = .format) ∨
      step st '%' n = .error (.queryParameterParseError qppMsg1) := by
  by_cases h1 : n = some '%'
  · subst h1
    exact Or.inl ⟨_, step_outside_percent_escape_set st hm (Or.inr hsty) hpe, rfl⟩
  · by_cases h2 : n = some 's'
    · subst h2
      exact Or.inl ⟨_, step_outside_percent_s st hm (Or.inr hsty) hpe, rfl⟩
    · exact Or.inr
        (step_outside_percent_raise st n hm (Or.inr hsty) hpe h1 h2 (fun _ => hn))

/-- C4: named and pyformat placeholders collapse by first occurrence:
the two specified queries translate with repeated names mapped to the same
`$N`; in general, when a finished placeholder name is already present the
scanner emits `$(first index + 1)` and drops the duplicate, and a fresh
name is appended and numbered `$(count)`; the remap closure returns the
argument values in first-occurrence placeholder order. -/
theorem C4_placeholder_first_occurrence (α : Type) (f : List Char → α) :
    (convert_paramstyle .named ("SELECT :a, :b, :a".toList) =
      .ok ⟨"SELECT $1, $2, $1".toList, .named, ["a".toList, "b".toList]⟩) ∧
    (convert_paramstyle .pyformat ("SELECT %(x)s, %(y)s, %(x)s".toList) =
      .ok ⟨"SELECT $1, $2, $1".toList, .pyformat, ["x".toList, "y".toList]⟩) ∧
    (∀ acc nm, nm ∈ acc →
      resolvePlaceholder (acc ++ [nm]) = (dollarIdx (firstIdx nm acc + 1), acc)) ∧
    (∀ acc nm, nm ∉ acc →
      resolvePlaceholder (acc ++ [nm]) =
        (dollarIdx (acc.length + 1), acc ++ [nm])) ∧
    (∀ ps, pyMakeArgsNamed ps (fun p => some (f p)) = .ok (ps.map f)) ∧
    (pyMakeArgsNamed ["a".toList, "b".toList] (fun p => some (f p)) =
      .ok [f ("a".toList), f ("b".toList)]) :=
  ⟨by decide, by decide, resolvePlaceholder_mem, resolvePlaceholder_not_mem,
    pyMakeArgsNamed_total f, pyMakeArgsNamed_total f ["a".toList, "b".toList]⟩

/-- C4 witness: the collapse rule applied at a concrete repeated and a
concrete fresh placeholder name. -/
theorem C4_witness :
    resolvePlaceholder (["a".toList, "b".toList] ++ ["a".toList]) =
      (dollarIdx (firstIdx ("a".toList) ["a".toList, "b".toList] + 1),
        ["a".toList, "b".toList]) ∧
    resolvePlaceholder (["a".toList] ++ ["b".toList]) =
      (dollarIdx ([("a".toList : List Char)].length + 1), ["a".toList, "b".toList]) :=
  ⟨(C4_placeholder_first_occurrence Nat (fun _ => 0)).2.2.1 _ _ (by decide),
   (C4_placeholder_first_occurrence Nat (fun _ => 0)).2.2.2.1 _ _ (by decide)⟩

/-- C5: `%%` is emitted as a single `%` both outside and inside
single-quoted strings (the specified scenario-4 query translates as
claimed), and a `%` followed by a character other than `s` and `%` that
does not start a placeholder raises `QueryParameterParseError` — both
outside quotes and inside a single-quoted string. -/
theorem C5_percent_escape_and_parse_errors :
    (convert_paramstyle .format
        ("WHERE s = ".toList ++ sqChar :: ("100%%".toList ++ sqChar :: " AND t = %s".toList)) =
      .ok ⟨"WHERE s = ".toList ++ sqChar :: ("100%".toList ++ sqChar :: " AND t = $1".toList),
        .format, []⟩) ∧
    (∀ sty, sty = .format ∨ sty = .pyformat →
      (∀ a b, (∀ c ∈ a, PlainChar c) → (∀ c ∈ b, PlainChar c) →
        convert_paramstyle sty (a ++ '%' :: '%' :: b) =
          .ok ⟨a ++ '%' :: b, .format, []⟩) ∧
      (∀ a q1 q2 b, (∀ c ∈ a, PlainChar c) → lastPrev a none ≠ some 'E' →
        (∀ c ∈ q1, PlainSQChar c) → (∀ c ∈ q2, PlainSQChar c) →
        (∀ c ∈ b, PlainChar c) →
        convert_paramstyle sty
            (a ++ sqChar :: (q1 ++ '%' :: '%' :: (q2 ++ sqChar :: b))) =
          .ok ⟨a ++ sqChar :: (q1 ++ '%' :: (q2 ++ sqChar :: b)), sty, []⟩) ∧
      (∀ a b X, (∀ c ∈ a, PlainChar c) → X ≠ 's' → X ≠ '%' →
        (sty = .pyformat → X ≠ '(') →
        convert_paramstyle sty (a ++ '%' :: X :: b) =
          .error (.queryParameterParseError qppMsg1)) ∧
      (∀ a q r X, (∀ c ∈ a, PlainChar c) → lastPrev a none ≠ some 'E' →
        (∀ c ∈ q, PlainSQChar c) → X ≠ 's' → X ≠ '%' →
        convert_paramstyle sty (a ++ sqChar :: (q ++ '%' :: X :: r)) =
          .error (.queryParameterParseError (qppMsg2 X)))) := by
  refine ⟨by decide, fun sty hsty => ⟨?_, ?_, ?_, ?_⟩⟩
  · exact fun a b hpa hpb => conv_doublepercent_outside sty hsty a b hpa hpb
  · exact fun a q1 q2 b hpa hE h1 h2 hpb =>
      conv_doublepercent_sq sty hsty a q1 q2 b hpa hE h1 h2 hpb
  · exact fun a b X hpa h1 h2 h3 =>
      conv_percent_raise_outside sty hsty a b X hpa h1 h2 h3
  · exact fun a q r X hpa hE hpq _ h2 =>
      conv_percent_raise_sq sty hsty a q r X hpa hE hpq h2

/-- C5 witness: the universal clauses applied at concrete queries. -/
theorem C5_witness :
    convert_paramstyle .format ("ab".toList ++ '%' :: '%' :: "cd".toList) =
      .ok ⟨"ab".toList ++ '%' :: "cd".toList, .format, []⟩ ∧
    convert_paramstyle .format
        ("x = ".toList ++ sqChar :: ("12".toList ++ '%' :: '%' :: ("34".toList ++ sqChar :: " y".toList))) =
      .ok ⟨"x = ".toList ++ sqChar :: ("12".toList ++ '%' :: ("34".toList ++ sqChar :: " y".toList)),
        .format, []⟩ ∧
    convert_paramstyle .format ("ab".toList ++ '%' :: 'x' :: "cd".toList) =
      .error (.queryParameterParseError qppMsg1) ∧
    convert_paramstyle .pyformat
        ("ab".toList ++ sqChar :: ("cd".toList ++ '%' :: 'x' :: "ef".toList)) =
      .error (.queryParameterParseError (qppMsg2 'x')) :=
  ⟨((C5_percent_escape_and_parse_errors.2 .format (Or.inl rfl)).1 _ _
      (by decide) (by decide)),
   ((C5_percent_escape_and_parse_errors.2 .format (Or.inl rfl)).2.1 _ _ _ _
      (by decide) (by decide) (by decide) (by decide) (by decide)),
   ((C5_percent_escape_and_parse_errors.2 .format (Or.inl rfl)).2.2.1 _ _ _
      (by decide) (by decide) (by decide) (fun h => absurd h (by decide))),
   ((C5_percent_escape_and_parse_errors.2 .pyformat (Or.inr rfl)).2.2.2 _ _ _ _
      (by decide) (by decide) (by decide) (by decide) (by decide))⟩

/-- C9: in the pyformat dialect, a `%` encountered outside quoted regions
whose next character is not `(` mutates the scanner style to `format`
(or raises at once); the format style is never left again; consequently a
query with a `%s` placeholder before a `%(name)s` placeholder raises
`QueryParameterParseError`, as the specified example does. -/
theorem C9_pyformat_switches_to_format :
    (∀ st n, st.mode = .outside → st.style = .pyformat →
      st.inParamEscape = false → n ≠ some '(' →
      (∃ st2, step st '%' n = .ok st2 ∧ st2.style = .format) ∨
        step st '%' n = .error (.queryParameterParseError qppMsg1)) ∧
    (∀ st c n st2, st.style = .format → step st c n = .ok st2 →
      st2.style = .format) ∧
    (∀ a b r, (∀ c ∈ a, PlainChar c) → (∀ c ∈ b, PlainChar c) →
      convert_paramstyle .pyformat (a ++ '%' :: 's' :: (b ++ '%' :: '(' :: r)) =
        .error (.queryParameterParseError qppMsg1)) ∧
    (convert_paramstyle .pyformat ("SELECT %s, %(x)s".toList) =
      .error (.queryParameterParseError qppMsg1)) :=
  ⟨step_pyformat_percent_switches,
   fun st c n st2 => step_style_format_mono st c n st2,
   fun a b r hpa hpb => conv_pyformat_s_before_named_raises a b r hpa hpb,
   by decide⟩

/-- C9 witness: the switch lemma, the monotonicity lemma and the composed
raise applied at concrete inputs. -/
theorem C9_witness :
    ((∃ st2, step (initState .pyformat) '%' (some '%') = .ok st2 ∧
        st2.style = .format) ∨
      step (initState .pyformat) '%' (some '%') =
        .error (.queryParameterParseError qppMsg1)) ∧
    convert_paramstyle .pyformat
        ("SELECT ".toList ++ '%' :: 's' :: (", ".toList ++ '%' :: '(' :: "x)s".toList)) =
      .error (.queryParameterParseError qppMsg1) :=
  ⟨C9_pyformat_switches_to_format.1 (initState .pyformat) (some '%') rfl rfl rfl
      (by decide),
   C9_pyformat_switches_to_format.2.2.1 _ _ _ (by decide) (by decide)⟩

/-- C6: for every ErrorResponse message whose parsed field dictionary has
severity, code and message entries, the handler sends Sync exactly when the
session was mid-Bind, always leaves the binding flag cleared, and raises
`InterfaceError("md5 password authentication failed")` when the code field
equals `28000` and otherwise `ProgrammingError(severity, code, message)`.
(Byte strings and text strings are identified, as under Python 2, where the
`msg_dict[RESPONSE_CODE] == "28000"` comparison is meaningful.) -/
theorem C6_error_response (binding : Bool) (data : List Char)
    (sev code msg : List Char)
    (hs : dataIntoDictGet data RESPONSE_SEVERITY = some sev)
    (hc : dataIntoDictGet data RESPONSE_CODE = some code)
    (hm : dataIntoDictGet data RESPONSE_MSG = some msg) :
    ((handle_ERROR_RESPONSE binding data).sent =
      if binding then [WireMsg.syncMsg] else []) ∧
    ((handle_ERROR_RESPONSE binding data).binding = false) ∧
    (code = ("28000".toList) →
      (handle_ERROR_RESPONSE binding data).raised =
        .interfaceError ("md5 password authentication failed".toList)) ∧
    (code ≠ ("28000".toList) →
      (handle_ERROR_RESPONSE binding data).raised =
        .programmingError sev code msg) := by
  simp only [handle_ERROR_RESPONSE]
  rw [hc, hs, hm]
  by_cases h : code = ['2', '8', '0', '0', '0']
  · refine ⟨?_, ?_, fun _ => ?_, fun hctr => absurd h hctr⟩ <;>
      cases binding <;> simp [h]
  · refine ⟨?_, ?_, fun hctr => absurd hctr h, fun _ => ?_⟩ <;>
      cases binding <;> simp [h]

/-- C6 witness: the handler applied to two concrete ErrorResponse
payloads. -/
theorem C6_witness :
    (handle_ERROR_RESPONSE true
        ("SFATAL".toList ++ Char.ofNat 0 :: ("C28000".toList ++ Char.ofNat 0 ::
          ("Mbad".toList ++ [Char.ofNat 0])))).raised =
      .interfaceError ("md5 password authentication failed".toList) ∧
    (handle_ERROR_RESPONSE true
        ("SFATAL".toList ++ Char.ofNat 0 :: ("C28000".toList ++ Char.ofNat 0 ::
          ("Mbad".toList ++ [Char.ofNat 0])))).sent = [WireMsg.syncMsg] ∧
    (handle_ERROR_RESPONSE false
        ("SERROR".toList ++ Char.ofNat 0 :: ("C42601".toList ++ Char.ofNat 0 ::
          ("Moops".toList ++ [Char.ofNat 0])))).raised =
      .programmingError ("ERROR".toList) ("42601".toList) ("oops".toList) := by
  have h1 := C6_error_response true
    ("SFATAL".toList ++ Char.ofNat 0 :: ("C28000".toList ++ Char.ofNat 0 ::
      ("Mbad".toList ++ [Char.ofNat 0])))
    ("FATAL".toList) ("28000".toList) ("bad".toList)
    (by decide) (by decide) (by decide)
  have h2 := C6_error_response false
    ("SERROR".toList ++ Char.ofNat 0 :: ("C42601".toList ++ Char.ofNat 0 ::
      ("Moops".toList ++ [Char.ofNat 0])))
    ("ERROR".toList) ("42601".toList) ("oops".toList)
    (by decide) (by decide) (by decide)
  exact ⟨h1.2.2.1 rfl, h1.1, h2.2.2.2 (by decide)⟩

/-- C7: on an AuthenticationRequest with code 5 and 4-byte salt, with a
non-None password, the handler sends a PasswordMessage whose NUL-terminated
body is the ASCII bytes of "md5" (109, 100, 53) followed by
`md5hex(md5hex(password || user) || salt)`, where `md5hex` abstracts
`md5(x).hexdigest().encode("ascii")`. -/
theorem C7_md5_password_message (md5hex : List Nat → List Nat)
    (user pwd salt : List Nat) (hs : salt.length = 4) :
    handle_AUTHENTICATION_REQUEST md5hex user (some pwd)
        ([0, 0, 0, 5] ++ salt) =
      .ok [WireMsg.passwordMsg
        ([109, 100, 53] ++ md5hex (md5hex (pwd ++ user) ++ salt) ++ [0])] := by
  unfold handle_AUTHENTICATION_REQUEST
  have htake : salt.take 4 = salt := by
    rw [← hs]
    exact List.take_length salt
  simp only [List.cons_append, List.nil_append]
  rw [show intFromBytes4 0 0 0 5 = 5 from by decide]
  rw [if_neg (by decide), if_pos rfl, if_neg (by omega)]
  rw [htake]

/-- C7 witness: the MD5 handler applied at a concrete user, password, salt
and hash function. -/
theorem C7_witness :
    handle_AUTHENTICATION_REQUEST (fun _ => [170, 187]) [117] (some [112])
        ([0, 0, 0, 5] ++ [1, 2, 3, 4]) =
      .ok [WireMsg.passwordMsg
        ([109, 100, 53] ++ (fun (_ : List Nat) => [170, 187])
          ((fun (_ : List Nat) => [170, 187]) ([112] ++ [117]) ++ [1, 2, 3, 4]) ++ [0])] :=
  C7_md5_password_message (fun _ => [170, 187]) [117] [112] [1, 2, 3, 4] (by decide)

/-- C8 (amended): `read_tuple` pops the oldest cached row first; when the
cache is empty and the portal is suspended it sends
`Execute(row_cache_size)` + Sync + Flush and dispatches responses before
retrying; when the cache is empty and the portal is not suspended no
Execute is ever sent (the cache is never refilled otherwise); when the
cache is still empty and the portal row description is nonempty it sends a
Close('P') message + Sync and dispatches, then returns None — the Close('P')
payload being the STATEMENT name, since `_make_CLOSE(b"P", ps)` writes
`ps.statement_name` rather than the portal name; but when the
portal row description is empty it raises
`ProgrammingError("no result set")` instead of closing and returning
None. -/
theorem C8_read_tuple (α : Type) [DecidableEq α]
    (dispatch : PreparedStatementState α → PreparedStatementState α)
    (ps : PreparedStatementState α) :
    (∀ r rest, ps.cachedRows = r :: rest →
      read_tuple dispatch ps = (.ok (some r), { ps with cachedRows := rest }, [])) ∧
    (ps.cachedRows = [] → ps.portalSuspended = true →
      ((read_tuple dispatch ps).2.2.take 3 =
        [WireMsg.executeMsg ps.portalName row_cache_size,
         WireMsg.syncMsg, WireMsg.flushMsg]) ∧
      (∀ r rest,
        (dispatch { ps with cmd := none, portalSuspended := false }).cachedRows
          = r :: rest →
        read_tuple dispatch ps =
          (.ok (some r),
           { dispatch { ps with cmd := none, portalSuspended := false } with
             cachedRows := rest },
           [WireMsg.executeMsg ps.portalName row_cache_size,
            WireMsg.syncMsg, WireMsg.flushMsg]))) ∧
    (ps.cachedRows = [] → ps.portalSuspended = false →
      ∀ m ∈ (read_tuple dispatch ps).2.2, ∀ pn rc, m ≠ WireMsg.executeMsg pn rc) ∧
    (ps.cachedRows = [] → ps.portalSuspended = false →
      ∀ d ds, ps.portalRowDesc = some (d :: ds) →
      read_tuple dispatch ps =
        (.ok none, dispatch ps,
         [WireMsg.closePortalMsg ps.statementName, WireMsg.syncMsg])) ∧
    (ps.cachedRows = [] → ps.portalSuspended = true →
      ∀ st2, st2 = dispatch { ps with cmd := none, portalSuspended := false } →
      st2.cachedRows = [] → ∀ d ds, st2.portalRowDesc = some (d :: ds) →
      read_tuple dispatch ps =
        (.ok none, dispatch st2,
         [WireMsg.executeMsg ps.portalName row_cache_size,
          WireMsg.syncMsg, WireMsg.flushMsg,
          WireMsg.closePortalMsg st2.statementName, WireMsg.syncMsg])) ∧
    (ps.cachedRows = [] → ps.portalSuspended = false → ps.portalRowDesc = some [] →
      read_tuple dispatch ps =
        (.error (.progError ("no result set".toList)), ps, [])) := by
  obtain ⟨rows, susp, desc, pname, sname, pcmd⟩ := ps
  refine ⟨?_, ?_, ?_, ?_, ?_, ?_⟩
  · intro r rest hr
    simp only at hr
    subst hr
    rfl
  · intro hempty hsusp
    simp only at hempty hsusp
    subst hempty
    subst hsusp
    constructor
    · simp only [read_tuple, send_EXECUTE, if_true, eq_self_iff_true]
      cases hd : (dispatch ⟨[], false, desc, pname, sname, none⟩).cachedRows with
      | cons r rest => simp [hd]
      | nil =>
        simp only [hd]
        cases hdesc : (dispatch ⟨[], false, desc, pname, sname, none⟩).portalRowDesc with
        | none => simp [hdesc, close_portal]
        | some l => cases l <;> simp [hdesc, close_portal]
    · intro r rest hd
      simp [read_tuple, send_EXECUTE, hd]
  · intro hempty hsusp m hm pn rc
    simp only at hempty hsusp
    subst hempty
    subst hsusp
    cases desc with
    | none =>
      simp [read_tuple, close_portal] at hm
    | some l =>
      cases l with
      | nil => simp [read_tuple, close_portal] at hm
      | cons d ds =>
        simp [read_tuple, close_portal] at hm
        rcases hm with h | h <;> subst h <;> simp
  · intro hempty hsusp d ds hdesc
    simp only at hempty hsusp hdesc
    subst hempty
    subst hsusp
    subst hdesc
    simp [read_tuple, close_portal]
  · intro hempty hsusp st2 hst2 h2 d ds hdesc
    simp only at hempty hsusp
    subst hempty
    subst hsusp
    subst hst2
    simp [read_tuple, send_EXECUTE, close_portal, h2, hdesc]
  · intro hempty hsusp hdesc
    simp only at hempty hsusp hdesc
    subst hempty
    subst hsusp
    subst hdesc
    simp [read_tuple]

/-- C8 counterexample: with an empty cache, an unsuspended portal and an
empty portal row description, `read_tuple` raises
`ProgrammingError("no result set")`, not the `None` return the claim
asserts for every still-empty cache. -/
theorem C8_counterexample :
    read_tuple (α := Unit) id ⟨[], false, some [], "p1".toList, "s1".toList, none⟩ =
      (.error (.progError ("no result set".toList)),
        ⟨[], false, some [], "p1".toList, "s1".toList, none⟩, []) ∧
    ((Except.error (PyErr.progError ("no result set".toList)) :
        Except PyErr (Option Unit)) ≠ Except.ok none) := by
  constructor
  · rfl
  · decide

/-- C8 witness: the amended theorem applied at concrete statement
states. -/
theorem C8_witness :
    read_tuple (α := Nat) id ⟨[7, 8], true, some [()], "p2".toList, "s2".toList, none⟩ =
      (.ok (some 7), ⟨[8], true, some [()], "p2".toList, "s2".toList, none⟩, []) ∧
    read_tuple (α := Nat) id ⟨[], false, some [()], "p2".toList, "s2".toList, none⟩ =
      (.ok none, ⟨[], false, some [()], "p2".toList, "s2".toList, none⟩,
        [WireMsg.closePortalMsg ("s2".toList), WireMsg.syncMsg]) ∧
    read_tuple (α := Nat) id ⟨[], true, some [()], "p2".toList, "s2".toList, none⟩ =
      (.ok none, ⟨[], false, some [()], "p2".toList, "s2".toList, none⟩,
        [WireMsg.executeMsg ("p2".toList) row_cache_size,
         WireMsg.syncMsg, WireMsg.flushMsg,
         WireMsg.closePortalMsg ("s2".toList), WireMsg.syncMsg]) :=
  ⟨(C8_read_tuple Nat id
      ⟨[7, 8], true, some [()], "p2".toList, "s2".toList, none⟩).1 7 [8] rfl,
   (C8_read_tuple Nat id
      ⟨[], false, some [()], "p2".toList, "s2".toList, none⟩).2.2.2.1
      rfl rfl () [] rfl,
   (C8_read_tuple Nat id
      ⟨[], true, some [()], "p2".toList, "s2".toList, none⟩).2.2.2.2.1
      rfl rfl _ rfl rfl () [] rfl⟩

end PG8000
